import Mathlib

/-!
Shallow embedding of the msaada loan-origination chat client
(`ChatSupport`, `ProfileForm`) and the relevant store contracts
(`chat_messages`, `chat_conversations`, `chat_typing_status`), with
theorems checking the natural-language specification against the code.

Conventions of the embedding:
* identities (user ids, conversation ids, message ids) are `Nat`;
* timestamps are `Nat` (the code only ever writes `new Date().toISOString()`
  and compares for presence, never for order);
* a nullable column is an `Option`;
* each stateful handler is a pure function from its inputs and the current
  state to the new state together with the list of external writes it issues.
-/

namespace Msaada

/-- Row of the `chat_messages` table as the client sees it
(interface `Message` in `ChatSupport`). The store-side columns the client
never reads are omitted. -/
structure Message where
  id : Nat
  conversation_id : Nat
  user_id : Nat
  message : String
  is_support : Bool
  created_at : Nat
  attachment_url : Option String := none
  attachment_type : Option String := none
  read_at : Option Nat := none
deriving Repr, DecidableEq

/-- Effect of `markMessageAsRead` on a single row: the code runs
`update {read_at: now} where id = messageId and read_at is null`, so a row
is touched only when its id matches and its read timestamp is unset. -/
def msgMarkRead (messageId now : Nat) (m : Message) : Message :=
  if m.id = messageId ∧ m.read_at = none then { m with read_at := some now } else m

/-- The store-level `markMessageAsRead` write of `ChatSupport`: a conditional
update over the `chat_messages` table. -/
def markMessageAsRead (store : List Message) (messageId now : Nat) : List Message :=
  store.map (msgMarkRead messageId now)

/-- Message-insert subscription callback of `ChatSupport`: appends the payload
to the in-memory list and calls `markMessageAsRead(payload.new.id)`
unconditionally. Returns the new list together with the message ids for which
a mark-read write is issued. -/
def onMessageInsert (current : List Message) (payload : Message) :
    List Message × List Nat :=
  (current ++ [payload], [payload.id])

/-- Mark-read pass of `fetchMessages`: after fetching history, the code issues
`markMessageAsRead(message.id)` exactly for the rows with
`!message.read_at && message.user_id !== userId`. Returns those ids. -/
def fetchMessagesMarkReads (data : List Message) (userId : Nat) : List Nat :=
  (data.filter (fun m => m.read_at = none ∧ m.user_id ≠ userId)).map (fun m => m.id)

theorem msgMarkRead_read_at (messageId now : Nat) (m : Message) :
    (msgMarkRead messageId now m).read_at =
      if m.id = messageId ∧ m.read_at = none then some now else m.read_at := by
  unfold msgMarkRead
  split <;> rfl

theorem msgMarkRead_msgMarkRead (messageId t₁ t₂ : Nat) (m : Message) :
    msgMarkRead messageId t₂ (msgMarkRead messageId t₁ m) = msgMarkRead messageId t₁ m := by
  unfold msgMarkRead
  by_cases h : m.id = messageId ∧ m.read_at = none
  · simp [h]
  · simp [h]

/-- C2: the mark-read operation only transitions a null read timestamp to a
value — its effect on a row's read timestamp is `some t₁` exactly when the row
id matches and the timestamp is unset, and the old value otherwise — and
marking a message read twice leaves the store equal to its state after the
first mark, so the second mark is a no-op. -/
theorem C2_markMessageAsRead_idempotent (store : List Message) (mid t₁ t₂ : Nat) :
    (∀ m : Message, (msgMarkRead mid t₁ m).read_at =
        if m.id = mid ∧ m.read_at = none then some t₁ else m.read_at) ∧
    markMessageAsRead (markMessageAsRead store mid t₁) mid t₂ =
      markMessageAsRead store mid t₁ := by
  refine ⟨fun m => msgMarkRead_read_at mid t₁ m, ?_⟩
  unfold markMessageAsRead
  rw [List.map_map]
  exact List.map_congr_left fun m _ => msgMarkRead_msgMarkRead mid t₁ t₂ m

/-- C1: evaluation at the failing input. A message-insert notification whose
payload the viewer sent themselves (viewer id 1, message id 7 with sender
user id 1) still makes the subscription callback issue a mark-read write for
message 7: the callback calls `markMessageAsRead(payload.new.id)`
unconditionally, with no sender check. The sender guard exists only in the
initial `fetchMessages` pass, which for the very same row issues no
mark-read write, contradicting the claimed "if and only if". -/
theorem C1_callback_marks_own_message :
    (onMessageInsert []
        { id := 7, conversation_id := 3, user_id := 1, message := "hi",
          is_support := false, created_at := 10 }).2 = [7] ∧
    fetchMessagesMarkReads
        [{ id := 7, conversation_id := 3, user_id := 1, message := "hi",
           is_support := false, created_at := 10 }] 1 = [] := by
  constructor <;> rfl

/-! ## Conversation store and `setupChat` -/

/-- Row of the `chat_conversations` table: the client creates rows with
`insert({user_id: user.id})`, the status column defaulting to `"active"`. -/
structure Conversation where
  id : Nat
  user_id : Nat
  status : String
deriving Repr, DecidableEq

/-- The `chat_conversations` store, together with the id sequence the
platform uses to assign primary keys to inserted rows. -/
structure ConvStore where
  rows : List Conversation
  nextId : Nat
deriving Repr, DecidableEq

/-- Rows matching the lookup filters `.eq('user_id', u).eq('status', 'active')`. -/
def activeRowsFor (s : ConvStore) (u : Nat) : List Conversation :=
  s.rows.filter (fun c => c.user_id = u ∧ c.status = "active")

/-- The conversation lookup of `setupChat`: `.single()` yields data only when
exactly one row matches the filters; on zero or several matching rows the
destructured `data` is null (the error is discarded by the code). -/
def singleActive (s : ConvStore) (u : Nat) : Option Nat :=
  match activeRowsFor s u with
  | [c] => some c.id
  | _ => none

/-- Profile row as the chat screen consumes it: only `full_name` is read. -/
structure ChatProfile where
  full_name : String
deriving Repr, DecidableEq

/-- External calls `setupChat` can issue, in order. -/
inductive ExtCall where
  | fetchProfile
  | convLookup
  | convCreate
deriving Repr, DecidableEq

/-- Result of running `setupChat`: the conversation store afterwards, the
resolved conversation id, the fetched profile and the external calls made. -/
structure SetupResult where
  store : ConvStore
  conversationId : Option Nat
  profile : Option ChatProfile
  calls : List ExtCall
deriving Repr, DecidableEq

/-- The `setupChat` routine of `ChatSupport`: resolve the user, fetch their
profile, and for a non-admin caller look up the active conversation, creating
one when the lookup yields nothing. The fetched profile is only stored for
rendering; no branch of the routine consults it. -/
def setupChat (isAdmin : Bool) (user : Option Nat)
    (profiles : Nat → Option ChatProfile) (s : ConvStore) : SetupResult :=
  match user with
  | none => ⟨s, none, none, []⟩
  | some u =>
    let profileData := profiles u
    if isAdmin then ⟨s, none, profileData, [.fetchProfile]⟩
    else
      match singleActive s u with
      | some cid => ⟨s, some cid, profileData, [.fetchProfile, .convLookup]⟩
      | none =>
        ⟨⟨s.rows ++ [⟨s.nextId, u, "active"⟩], s.nextId + 1⟩, some s.nextId,
          profileData, [.fetchProfile, .convLookup, .convCreate]⟩

/-- Render-time profile gate of `ChatSupport`: the condition
`!profile?.full_name && !isAdmin` under which the screen shows the
"Complete Your Profile First" call-to-action instead of the chat. -/
def showsProfileGate (profile : Option ChatProfile) (isAdmin : Bool) : Bool :=
  (match profile with
   | none => true
   | some p => p.full_name == "") && !isAdmin

theorem setupChat_profile (u : Nat) (profiles : Nat → Option ChatProfile)
    (s : ConvStore) : (setupChat false (some u) profiles s).profile = profiles u := by
  cases hc : singleActive s u <;> simp [setupChat, hc]

theorem setupChat_calls_lookup (u : Nat) (profiles : Nat → Option ChatProfile)
    (s : ConvStore) : ExtCall.convLookup ∈ (setupChat false (some u) profiles s).calls := by
  cases hc : singleActive s u <;> simp [setupChat, hc]

theorem singleActive_of_empty {s : ConvStore} {u : Nat}
    (h : activeRowsFor s u = []) : singleActive s u = none := by
  simp [singleActive, h]

/-- C3 counterexample: a non-admin caller (user 1) whose profile exists but
has no usable name is shown the profile-incomplete gate, yet `setupChat`
still performs the conversation lookup and — the store holding no active
conversation — the create: an external conversation call does occur for such
a caller. -/
theorem C3_counterexample_setup_still_creates :
    showsProfileGate
        (setupChat false (some 1) (fun _ => some ⟨""⟩) ⟨[], 0⟩).profile false = true ∧
    (setupChat false (some 1) (fun _ => some ⟨""⟩) ⟨[], 0⟩).calls =
      [.fetchProfile, .convLookup, .convCreate] ∧
    (setupChat false (some 1) (fun _ => some ⟨""⟩) ⟨[], 0⟩).store.rows =
      [⟨0, 1, "active"⟩] :=
  ⟨rfl, rfl, rfl⟩

/-- C3 (amended): for an end-user caller with no usable profile name the chat
screen is refused with the profile-incomplete call-to-action, but the refusal
is render-only: `setupChat` still performs the conversation lookup for that
caller, and still performs the create whenever no active conversation row
exists. -/
theorem C3_profile_gate_render_only (u : Nat)
    (profiles : Nat → Option ChatProfile) (s : ConvStore)
    (hname : showsProfileGate (profiles u) false = true) :
    showsProfileGate (setupChat false (some u) profiles s).profile false = true ∧
    ExtCall.convLookup ∈ (setupChat false (some u) profiles s).calls ∧
    (activeRowsFor s u = [] →
      ExtCall.convCreate ∈ (setupChat false (some u) profiles s).calls) := by
  refine ⟨?_, setupChat_calls_lookup u profiles s, ?_⟩
  · rw [setupChat_profile]; exact hname
  · intro h
    simp [setupChat, singleActive_of_empty h]

/-- Witness for C3's amended theorem at a concrete caller with no profile. -/
theorem C3_profile_gate_render_only_witness :
    showsProfileGate
        (setupChat false (some 1) (fun _ => none) ⟨[], 0⟩).profile false = true ∧
    ExtCall.convLookup ∈ (setupChat false (some 1) (fun _ => none) ⟨[], 0⟩).calls ∧
    (activeRowsFor ⟨[], 0⟩ 1 = [] →
      ExtCall.convCreate ∈ (setupChat false (some 1) (fun _ => none) ⟨[], 0⟩).calls) :=
  C3_profile_gate_render_only 1 (fun _ => none) ⟨[], 0⟩ rfl

/-- C7: under the (lookup-enforced) invariant that at most one active
conversation row exists for the identity, opening the chat yields a
conversation id, creates nothing when an active conversation already exists,
and reopening with the same identity leaves the store unchanged and resolves
to the same conversation id. -/
theorem C7_reopen_reuses_conversation (u : Nat)
    (profiles : Nat → Option ChatProfile) (s : ConvStore)
    (hinv : (activeRowsFor s u).length ≤ 1) :
    (setupChat false (some u) profiles s).conversationId.isSome = true ∧
    (activeRowsFor s u ≠ [] → (setupChat false (some u) profiles s).store = s) ∧
    (setupChat false (some u) profiles
        (setupChat false (some u) profiles s).store).store =
      (setupChat false (some u) profiles s).store ∧
    (setupChat false (some u) profiles
        (setupChat false (some u) profiles s).store).conversationId =
      (setupChat false (some u) profiles s).conversationId := by
  cases hc : singleActive s u with
  | some cid =>
      have h1 : setupChat false (some u) profiles s =
          ⟨s, some cid, profiles u, [.fetchProfile, .convLookup]⟩ := by
        simp [setupChat, hc]
      refine ⟨by simp [h1], fun _ => by simp [h1], ?_, ?_⟩ <;> simp [h1, setupChat, hc]
  | none =>
      have hempty : activeRowsFor s u = [] := by
        rcases hl : activeRowsFor s u with _ | ⟨a, _ | ⟨b, t⟩⟩
        · rfl
        · exfalso
          rw [singleActive, hl] at hc
          simp at hc
        · exfalso
          rw [hl] at hinv
          simp at hinv
      have h1 : setupChat false (some u) profiles s =
          ⟨⟨s.rows ++ [⟨s.nextId, u, "active"⟩], s.nextId + 1⟩, some s.nextId,
            profiles u, [.fetchProfile, .convLookup, .convCreate]⟩ := by
        simp [setupChat, hc]
      have h2 : activeRowsFor ⟨s.rows ++ [⟨s.nextId, u, "active"⟩], s.nextId + 1⟩ u =
          [⟨s.nextId, u, "active"⟩] := by
        unfold activeRowsFor at hempty ⊢
        simp only [List.filter_append, hempty]
        simp
      have h3 : singleActive ⟨s.rows ++ [⟨s.nextId, u, "active"⟩], s.nextId + 1⟩ u =
          some s.nextId := by
        rw [singleActive, h2]
      refine ⟨by simp [h1], fun hne => absurd hempty hne, ?_, ?_⟩ <;>
      · rw [h1]
        simp [setupChat, h3]

/-- Witness for C7 at a concrete empty store. -/
theorem C7_reopen_reuses_conversation_witness :
    (setupChat false (some 5) (fun _ => some ⟨"Jane Doe"⟩) ⟨[], 0⟩).conversationId.isSome
      = true ∧
    (activeRowsFor ⟨[], 0⟩ 5 ≠ [] →
      (setupChat false (some 5) (fun _ => some ⟨"Jane Doe"⟩) ⟨[], 0⟩).store = ⟨[], 0⟩) ∧
    (setupChat false (some 5) (fun _ => some ⟨"Jane Doe"⟩)
        (setupChat false (some 5) (fun _ => some ⟨"Jane Doe"⟩) ⟨[], 0⟩).store).store =
      (setupChat false (some 5) (fun _ => some ⟨"Jane Doe"⟩) ⟨[], 0⟩).store ∧
    (setupChat false (some 5) (fun _ => some ⟨"Jane Doe"⟩)
        (setupChat false (some 5) (fun _ => some ⟨"Jane Doe"⟩) ⟨[], 0⟩).store).conversationId =
      (setupChat false (some 5) (fun _ => some ⟨"Jane Doe"⟩) ⟨[], 0⟩).conversationId :=
  C7_reopen_reuses_conversation 5 (fun _ => some ⟨"Jane Doe"⟩) ⟨[], 0⟩ (by decide)

/-! ## Compose box: attachment staging and the send protocol -/

/-- Staged attachment as the browser exposes it: name, byte size, MIME type. -/
structure FileInfo where
  name : String
  size : Nat
  type : String
deriving Repr, DecidableEq

/-- Compose-box state: the draft text and the staged attachment. -/
structure ComposeState where
  newMessage : String
  selectedFile : Option FileInfo
deriving Repr, DecidableEq

/-- `handleFileSelect` of `ChatSupport`: a selected file larger than
`5 * 1024 * 1024` bytes is rejected with an error toast and nothing else
happens (the file is not staged, no store call is made); otherwise the file
is staged. The returned flag records whether the size-error toast was shown. -/
def handleFileSelect (st : ComposeState) (file : Option FileInfo) :
    ComposeState × Bool :=
  match file with
  | none => (st, false)
  | some f =>
    if f.size > 5 * 1024 * 1024 then (st, true)
    else ({ st with selectedFile := some f }, false)

/-- The JavaScript `String.prototype.trim()` primitive, modelled over the
character list: leading and trailing whitespace removed. -/
def jsTrim (s : String) : String :=
  String.mk (((s.data.dropWhile Char.isWhitespace).reverse.dropWhile
    Char.isWhitespace).reverse)

/-- Row the send protocol inserts into `chat_messages`. -/
structure ChatInsert where
  conversation_id : Option Nat
  user_id : Nat
  message : String
  is_support : Bool
  attachment_url : Option String
  attachment_type : Option String
deriving Repr, DecidableEq

/-- Outcome of one run of the send protocol: the object-store uploads
started, the message row inserted (if any), and the compose state afterwards. -/
structure SendOutcome where
  uploads : List String
  rowInsert : Option ChatInsert
  state : ComposeState
deriving Repr, DecidableEq

/-- Upload path used by `uploadFile`: scoped to the sender's identity with a
randomized file name; the randomness is passed in as `rand`, the extension is
the last dot-separated component of the original name. -/
def uploadPath (userId : Nat) (rand : String) (f : FileInfo) : String :=
  toString userId ++ "/" ++ rand ++ "." ++ (f.name.splitOn ".").getLastD ""

/-- `handleSubmit` of `ChatSupport` (the send protocol): bail out when the
trimmed draft is empty and no attachment is staged, or when no user is
resolved; otherwise upload the staged attachment (if any), insert one message
row with the trimmed body and the sender-role flag, and clear the compose
state. `publicUrl` stands for the reference the object store returns. -/
def chatHandleSubmit (userId conversationId : Option Nat) (isAdmin : Bool)
    (rand publicUrl : String) (st : ComposeState) : SendOutcome :=
  if (jsTrim st.newMessage = "" ∧ st.selectedFile = none) ∨ userId = none then
    ⟨[], none, st⟩
  else
    match userId with
    | none => ⟨[], none, st⟩
    | some uid =>
      match st.selectedFile with
      | some f =>
        ⟨[uploadPath uid rand f],
          some ⟨conversationId, uid, jsTrim st.newMessage, isAdmin,
            if publicUrl = "" then none else some publicUrl,
            if f.type = "" then none else some f.type⟩,
          ⟨"", none⟩⟩
      | none =>
        ⟨[], some ⟨conversationId, uid, jsTrim st.newMessage, isAdmin, none, none⟩,
          ⟨"", none⟩⟩

/-- C5: a send attempt whose text body trims to empty while no attachment is
staged is rejected up front: no upload is started, no message row is
inserted, and the compose state is left unchanged. -/
theorem C5_empty_send_rejected (userId conversationId : Option Nat)
    (isAdmin : Bool) (rand publicUrl : String) (st : ComposeState)
    (htext : jsTrim st.newMessage = "") (hfile : st.selectedFile = none) :
    chatHandleSubmit userId conversationId isAdmin rand publicUrl st =
      ⟨[], none, st⟩ := by
  unfold chatHandleSubmit
  rw [if_pos (Or.inl ⟨htext, hfile⟩)]

/-- Witness for C5 at a whitespace-only draft. -/
theorem C5_empty_send_rejected_witness :
    chatHandleSubmit (some 1) (some 2) false "abc123" "https://cdn/x" ⟨"   ", none⟩ =
      ⟨[], none, ⟨"   ", none⟩⟩ :=
  C5_empty_send_rejected (some 1) (some 2) false "abc123" "https://cdn/x"
    ⟨"   ", none⟩ (by decide) rfl

/-- C6: attaching a file whose size exceeds 5 MiB is rejected client-side:
the compose state (draft text included) is unchanged and only the error
toast is produced, and a subsequent run of the send protocol from that state
(no attachment having been staged before) starts no upload. -/
theorem C6_oversize_attachment_rejected (st : ComposeState) (f : FileInfo)
    (userId conversationId : Option Nat) (isAdmin : Bool)
    (rand publicUrl : String)
    (hsize : f.size > 5 * 1024 * 1024) (hstaged : st.selectedFile = none) :
    handleFileSelect st (some f) = (st, true) ∧
    (chatHandleSubmit userId conversationId isAdmin rand publicUrl
        (handleFileSelect st (some f)).1).uploads = [] := by
  have h1 : handleFileSelect st (some f) = (st, true) := by
    simp [handleFileSelect, hsize]
  refine ⟨h1, ?_⟩
  rw [h1]
  unfold chatHandleSubmit
  by_cases hg : (jsTrim st.newMessage = "" ∧ st.selectedFile = none) ∨ userId = none
  · rw [if_pos hg]
  · rw [if_neg hg]
    cases userId with
    | none => rfl
    | some uid => simp [hstaged]

/-- Witness for C6 at a 6 MiB file over a nonempty draft. -/
theorem C6_oversize_attachment_rejected_witness :
    handleFileSelect ⟨"draft text", none⟩
        (some ⟨"big.pdf", 6 * 1024 * 1024, "application/pdf"⟩) =
      (⟨"draft text", none⟩, true) ∧
    (chatHandleSubmit (some 1) (some 2) false "abc123" "https://cdn/x"
        (handleFileSelect ⟨"draft text", none⟩
          (some ⟨"big.pdf", 6 * 1024 * 1024, "application/pdf"⟩)).1).uploads = [] :=
  C6_oversize_attachment_rejected ⟨"draft text", none⟩
    ⟨"big.pdf", 6 * 1024 * 1024, "application/pdf"⟩ (some 1) (some 2) false
    "abc123" "https://cdn/x" (by decide) rfl

/-! ## Typing status: client debounce, store upsert, client list -/

/-- Typing-status fields as the client handles them: the body of the upsert
payload `updateTypingStatus` sends, and the subscription payload fields the
typing callback consumes (the store-generated uuid key is not among them). -/
structure TypingRow where
  conversation_id : Nat
  user_id : Nat
  is_typing : Bool
  last_updated : Nat
deriving Repr, DecidableEq

/-- Client-side timer state of the typing indicator: `some d` means an
inactivity timer of `d` milliseconds is armed
(`typingTimeoutRef.current`). -/
structure TypingClientState where
  timer : Option Nat
deriving Repr, DecidableEq

/-- `updateTypingStatus` of `ChatSupport`: bail out when no conversation or
user is resolved; otherwise unconditionally clear any armed timer, upsert the
typing flag stamped with the current time, and (re)arm the 3000 ms inactivity
timer exactly when the flag is true. Returns the new timer state together
with the upserts issued. -/
def updateTypingStatus (conversationId userId : Option Nat) (now : Nat)
    (st : TypingClientState) (isTyping : Bool) :
    TypingClientState × List TypingRow :=
  match conversationId, userId with
  | some cid, some uid =>
    (⟨if isTyping then some 3000 else none⟩, [⟨cid, uid, isTyping, now⟩])
  | _, _ => (st, [])

/-- Events driving the typing indicator: a compose-input change carrying the
new input value, focus loss, and expiry of the armed inactivity timer. -/
inductive TypingEvent where
  | change (value : String)
  | blur
  | timerFire
deriving Repr, DecidableEq

/-- Dispatch of the compose-input handlers in `ChatSupport`: `onChange` calls
`updateTypingStatus(value.length > 0)`, `onBlur` calls
`updateTypingStatus(false)`, and the armed timer's callback calls
`updateTypingStatus(false)`. -/
def typingStep (conversationId userId : Option Nat) (now : Nat)
    (st : TypingClientState) (e : TypingEvent) :
    TypingClientState × List TypingRow :=
  match e with
  | .change value => updateTypingStatus conversationId userId now st (value.length > 0)
  | .blur => updateTypingStatus conversationId userId now st false
  | .timerFire => updateTypingStatus conversationId userId now st false

/-- C8: with a conversation and user resolved, a keystroke that makes the
input non-empty upserts the typing flag to true and arms the 3000 ms
inactivity timer; the timer outcome of a keystroke is independent of the
previously armed timer (unconditional cancel-and-rearm); clearing the input
upserts false and disarms; focus loss upserts false and disarms; and timer
expiry upserts false and leaves the timer disarmed. -/
theorem C8_typing_debounce (cid uid now : Nat) (st st' : TypingClientState)
    (value : String) (hv : 0 < value.length) :
    typingStep (some cid) (some uid) now st (.change value) =
      (⟨some 3000⟩, [⟨cid, uid, true, now⟩]) ∧
    (typingStep (some cid) (some uid) now st (.change value)).1 =
      (typingStep (some cid) (some uid) now st' (.change value)).1 ∧
    typingStep (some cid) (some uid) now st (.change "") =
      (⟨none⟩, [⟨cid, uid, false, now⟩]) ∧
    typingStep (some cid) (some uid) now st .blur =
      (⟨none⟩, [⟨cid, uid, false, now⟩]) ∧
    typingStep (some cid) (some uid) now st .timerFire =
      (⟨none⟩, [⟨cid, uid, false, now⟩]) := by
  have hvb : decide (value.length > 0) = true := decide_eq_true hv
  refine ⟨?_, rfl, rfl, rfl, rfl⟩
  simp [typingStep, updateTypingStatus, hvb]

/-- Witness for C8 at a concrete one-character keystroke. -/
theorem C8_typing_debounce_witness :
    typingStep (some 1) (some 2) 100 ⟨some 3000⟩ (.change "h") =
      (⟨some 3000⟩, [⟨1, 2, true, 100⟩]) ∧
    (typingStep (some 1) (some 2) 100 ⟨some 3000⟩ (.change "h")).1 =
      (typingStep (some 1) (some 2) 100 ⟨none⟩ (.change "h")).1 ∧
    typingStep (some 1) (some 2) 100 ⟨some 3000⟩ (.change "") =
      (⟨none⟩, [⟨1, 2, false, 100⟩]) ∧
    typingStep (some 1) (some 2) 100 ⟨some 3000⟩ .blur =
      (⟨none⟩, [⟨1, 2, false, 100⟩]) ∧
    typingStep (some 1) (some 2) 100 ⟨some 3000⟩ .timerFire =
      (⟨none⟩, [⟨1, 2, false, 100⟩]) :=
  C8_typing_debounce 1 2 100 ⟨some 3000⟩ ⟨none⟩ "h" (by decide)

/-- Row of the `chat_typing_status` table as stored, including the surrogate
uuid primary key the migration generates
(`id uuid PRIMARY KEY DEFAULT gen_random_uuid()`). -/
structure TypingStoredRow where
  id : Nat
  conversation_id : Nat
  user_id : Nat
  is_typing : Bool
  last_updated : Nat
deriving Repr, DecidableEq

/-- The `chat_typing_status` store with an id sequence standing in for
`gen_random_uuid()`: every insert receives a fresh key. -/
structure TypingStore where
  rows : List TypingStoredRow
  nextId : Nat
deriving Repr, DecidableEq

/-- The client typing write of `updateTypingStatus`:
`supabase.from('chat_typing_status').upsert({...})` with no `onConflict`
option, which the gateway executes as an insert resolving conflicts on the
primary key `id`. The inserted row receives a fresh generated id, so the
primary-key conflict arm never fires; when a row for the same
(conversation, participant) pair already exists, the insert instead violates
`UNIQUE(conversation_id, user_id)` and the whole statement fails (unique
violation, which the client catch block discards), leaving the store
unchanged. Returns the store afterwards and whether the write succeeded. -/
def clientTypingUpsert (s : TypingStore) (cid uid : Nat) (f : Bool) (t : Nat) :
    TypingStore × Bool :=
  if s.rows.any (fun q => q.conversation_id = cid ∧ q.user_id = uid) then
    (s, false)
  else
    (⟨s.rows ++ [⟨s.nextId, cid, uid, f, t⟩], s.nextId + 1⟩, true)

/-- A sequence of flag/timestamp client typing upserts for one pair, applied
in order (a failed write leaves the store as it found it). -/
def applyClientTypingUpserts (s : TypingStore) (cid uid : Nat)
    (us : List (Bool × Nat)) : TypingStore :=
  us.foldl (fun acc ft => (clientTypingUpsert acc cid uid ft.1 ft.2).1) s

/-- Stored rows for one (conversation, participant) pair. -/
def storedPairRows (s : TypingStore) (cid uid : Nat) : List TypingStoredRow :=
  s.rows.filter (fun q => q.conversation_id = cid ∧ q.user_id = uid)

/-- C9: evaluation at the failing input. From the empty store, the first
client typing upsert for pair (conversation 1, user 2) succeeds and inserts
the row with flag true; the second upsert for the same pair — flag false at a
later timestamp — fails against `UNIQUE(conversation_id, user_id)` because
the call passes no `onConflict` and therefore conflicts only on the fresh
primary key; the error is discarded and the stored flag stays true. The
store does hold at most one row for the pair, but that row carries the first
upsert's flag, not the most recent one's, contradicting the claim's
last-write-wins half (and the spec's stated pair conflict key, which the
profile upsert honours via `onConflict: 'user_id'` but this call omits). -/
theorem C9_repeat_upsert_fails_unique :
    (clientTypingUpsert ⟨[], 0⟩ 1 2 true 10).2 = true ∧
    (clientTypingUpsert (clientTypingUpsert ⟨[], 0⟩ 1 2 true 10).1 1 2 false 20).2
      = false ∧
    applyClientTypingUpserts ⟨[], 0⟩ 1 2 [(true, 10), (false, 20)] =
      (clientTypingUpsert ⟨[], 0⟩ 1 2 true 10).1 ∧
    storedPairRows
        (applyClientTypingUpserts ⟨[], 0⟩ 1 2 [(true, 10), (false, 20)]) 1 2 =
      [⟨0, 1, 2, true, 10⟩] :=
  ⟨rfl, rfl, rfl, rfl⟩

/-- Typing-status subscription callback of `ChatSupport`: drop any in-memory
entry for the payload's participant, then append the payload (the whole
changed row, as delivered by the feed). -/
def onTypingChange (current : List TypingRow) (payload : TypingRow) : List TypingRow :=
  (current.filter (fun st => st.user_id ≠ payload.user_id)) ++ [payload]

/-- The client's in-memory typing-status list after a notification sequence,
starting from the initial empty list. -/
def processTypingNotifications (ns : List TypingRow) : List TypingRow :=
  ns.foldl onTypingChange []

/-- In-memory entries for one participant. -/
def entriesFor (l : List TypingRow) (uid : Nat) : List TypingRow :=
  l.filter (fun st => st.user_id = uid)

theorem find?_eq_head?_filter {α : Type} (p : α → Bool) (l : List α) :
    l.find? p = (l.filter p).head? := by
  induction l with
  | nil => rfl
  | cons a l ih =>
    rw [List.filter_cons]
    by_cases h : p a = true
    · rw [List.find?_cons_of_pos _ h, if_pos h]
      rfl
    · rw [List.find?_cons_of_neg _ (by simpa using h), if_neg h]
      exact ih

theorem entriesFor_onTypingChange (l : List TypingRow) (p : TypingRow) (uid : Nat) :
    entriesFor (onTypingChange l p) uid =
      if p.user_id = uid then [p] else entriesFor l uid := by
  unfold entriesFor onTypingChange
  rw [List.filter_append]
  by_cases h : p.user_id = uid
  · rw [if_pos h]
    have h2 : (l.filter (fun st => decide (st.user_id ≠ p.user_id))).filter
        (fun st => decide (st.user_id = uid)) = [] := by
      rw [List.filter_eq_nil_iff]
      intro q hq hqu
      have hne : q.user_id ≠ p.user_id := by simpa using List.of_mem_filter hq
      rw [h] at hne
      exact hne (by simpa using hqu)
    rw [h2]
    simp [h]
  · rw [if_neg h]
    have h3 : [p].filter (fun st => decide (st.user_id = uid)) = [] := by simp [h]
    rw [h3, List.append_nil, List.filter_filter]
    refine List.filter_congr ?_
    intro q _
    by_cases hq : q.user_id = uid
    · have hne : q.user_id ≠ p.user_id := fun hc => h (hc ▸ hq ▸ rfl)
      simp [hq, hne]
      exact fun hc => h hc.symm
    · simp [hq]

theorem entriesFor_fold (ns : List TypingRow) (uid : Nat) (acc : List TypingRow) :
    entriesFor (ns.foldl onTypingChange acc) uid =
      match (ns.filter (fun st => st.user_id = uid)).getLast? with
      | some p => [p]
      | none => entriesFor acc uid := by
  induction ns generalizing acc with
  | nil => rfl
  | cons q ns ih =>
    rw [List.foldl_cons, ih]
    by_cases h : q.user_id = uid
    · rw [List.filter_cons, if_pos (by simpa using h)]
      cases hf : ns.filter (fun st => decide (st.user_id = uid)) with
      | nil => simp [entriesFor_onTypingChange, h]
      | cons r rs =>
        rw [List.getLast?_cons_cons]
        rfl
    · rw [List.filter_cons, if_neg (by simpa using h)]
      cases hf : ns.filter (fun st => decide (st.user_id = uid)) with
      | nil => simp [entriesFor_onTypingChange, h]
      | cons r rs => rfl

/-- C10: after any sequence of typing-status change notifications, the
client's in-memory typing-status list holds at most one entry per
participant, and the entry looked up for a participant is exactly the most
recent notification payload received for that participant. -/
theorem C10_typing_list_last_write_wins (ns : List TypingRow) (uid : Nat) :
    (entriesFor (processTypingNotifications ns) uid).length ≤ 1 ∧
    (processTypingNotifications ns).find? (fun st => st.user_id = uid) =
      (ns.filter (fun st => st.user_id = uid)).getLast? := by
  have hfold := entriesFor_fold ns uid []
  unfold processTypingNotifications
  constructor
  · rw [hfold]
    cases hf : (ns.filter (fun st => decide (st.user_id = uid))).getLast? <;> simp [entriesFor]
  · rw [find?_eq_head?_filter]
    have hrw : (ns.foldl onTypingChange []).filter
        (fun st => decide (st.user_id = uid)) =
        entriesFor (ns.foldl onTypingChange []) uid := rfl
    rw [hrw, hfold]
    cases hf : (ns.filter (fun st => decide (st.user_id = uid))).getLast? <;>
      simp [entriesFor]

/-! ## Profile form validation -/

/-- Calendar date as `ProfileForm` handles it (the date input's
year-month-day value). -/
structure DateYMD where
  year : Nat
  month : Nat
  day : Nat
deriving Repr, DecidableEq

/-- Profile fields `validateProfile` inspects. -/
structure ProfileInput where
  full_name : String
  phone : String
  address : String
  date_of_birth : Option DateYMD
  monthly_income : Int
deriving Repr, DecidableEq

/-- `validateProfile` of `ProfileForm`, true iff no validation error is
recorded: the name must trim non-empty and have length at least 2, the phone
trim non-empty with length at least 10, the address trim non-empty with
length at least 5, a date of birth must be present with
`today.getFullYear() - birth.getFullYear()` at least 18, and the income must
be truthy and positive. -/
def validateProfile (today : DateYMD) (p : ProfileInput) : Bool :=
  let nameOk : Bool := ¬(jsTrim p.full_name = "" ∨ p.full_name.length < 2)
  let phoneOk : Bool := ¬(jsTrim p.phone = "" ∨ p.phone.length < 10)
  let addressOk : Bool := ¬(jsTrim p.address = "" ∨ p.address.length < 5)
  let dobOk : Bool :=
    match p.date_of_birth with
    | none => false
    | some d => ¬((today.year : Int) - (d.year : Int) < 18)
  let incomeOk : Bool := ¬(p.monthly_income = 0 ∨ p.monthly_income ≤ 0)
  nameOk && phoneOk && addressOk && dobOk && incomeOk

/-- Upsert row `handleSubmit` of `ProfileForm` writes to the profiles store,
keyed on `user_id` (`onConflict: 'user_id'`). -/
structure ProfileUpsert where
  user_id : Nat
  full_name : String
  address : String
  phone : String
  date_of_birth : Option DateYMD
  monthly_income : Int
deriving Repr, DecidableEq

/-- `handleSubmit` of `ProfileForm`: when `validateProfile` fails the handler
returns before any store call; otherwise exactly one upsert with the trimmed
text fields is issued. Returns the list of store writes issued. -/
def profileHandleSubmit (today : DateYMD) (userId : Nat) (p : ProfileInput) :
    List ProfileUpsert :=
  if validateProfile today p then
    [⟨userId, jsTrim p.full_name, jsTrim p.address, jsTrim p.phone,
      p.date_of_birth, p.monthly_income⟩]
  else []

/-- True age below 18: `today` precedes the 18th birthday for the given date
of birth. -/
def under18 (today dob : DateYMD) : Bool :=
  today.year < dob.year + 18 ||
    (today.year == dob.year + 18 &&
      (today.month < dob.month || (today.month == dob.month && today.day < dob.day)))

/-- C4: evaluation at the failing input. On 2026-01-01 a caller born
2008-12-31 is 17 years old — under 18 — yet `validateProfile` accepts the
profile, because the age check compares the bare calendar-year difference
(2026 - 2008 = 18, not below 18), and `handleSubmit` issues the store
upsert; the claim (and the store's own check constraint, which demands a
full 18 years) says such a submission is rejected with no store write. -/
theorem C4_year_boundary_minor_not_rejected :
    under18 ⟨2026, 1, 1⟩ ⟨2008, 12, 31⟩ = true ∧
    validateProfile ⟨2026, 1, 1⟩
      ⟨"John Doe", "0712345678", "Nairobi, Kenya", some ⟨2008, 12, 31⟩, 50000⟩ = true ∧
    profileHandleSubmit ⟨2026, 1, 1⟩ 1
      ⟨"John Doe", "0712345678", "Nairobi, Kenya", some ⟨2008, 12, 31⟩, 50000⟩ =
      [⟨1, "John Doe", "Nairobi, Kenya", "0712345678", some ⟨2008, 12, 31⟩, 50000⟩] := by
  refine ⟨rfl, by decide, by decide⟩

end Msaada
